import Mathlib

/-!
Verification development for the luz-nocturna night-light scheduler.

Shallow embedding of the scheduling core in `internal/models/config.go`
(`timeToMinutes`, `calculateTemperatureForTime`, `isInTransitionPeriod`,
`calculateTransitionProgress`, `interpolateTemperature`, `GetNextScheduleChange`,
`Start`/`Stop`/`UpdateConfig`) and of the color science in
`internal/system/gamma.go` (`temperatureToRGB`, `rgbToTemperature`).

Modelling conventions:
- Go `int` is embedded as `ℤ`; Go's `%` operator (truncated remainder) is
  `Int.tmod`.
- Go `float64` temperature/progress arithmetic is embedded as exact `ℚ`
  arithmetic; every concrete value appearing in the settled claims
  (integers, halves such as 15/30) is exactly representable in binary
  floating point, where `float64` and `ℚ` arithmetic coincide.
- `fmt.Sscanf(timeStr, "%d:%d", &hours, &minutes)` is modelled by an
  explicit scanner: the `%d` verb skips leading white space, accepts an
  optional sign and one or more decimal digits; the literal `:` must match
  exactly; a variable whose verb never matches keeps its zero value, and
  the call's error is ignored exactly as in the source.
- The transcendental `math.Log`/`math.Pow` in `gamma.go` are embedded as
  `Real.log` and real `rpow` over `ℝ`.
-/

namespace LuzNocturna

/-! ### Sscanf "%d:%d" model (for `timeToMinutes`, config.go line 358) -/

/-- Skip leading white space, as the `%d` verb of Go's `fmt` scanner does. -/
def skipSpaces : List Char → List Char
  | [] => []
  | c :: cs => if c.isWhitespace then skipSpaces cs else c :: cs

/-- Consume a maximal run of decimal digits, accumulating their value. -/
def readDigits : List Char → ℕ → ℕ × List Char
  | [], acc => (acc, [])
  | c :: cs, acc =>
    if c.isDigit then readDigits cs (10 * acc + (c.toNat - 48)) else (acc, c :: cs)

/-- Scan one decimal integer as Go's `%d` verb does: skip white space, then an
optional sign followed by at least one digit; `none` when no integer is
present at that position. -/
def scanInt (s : List Char) : Option (ℤ × List Char) :=
  match skipSpaces s with
  | [] => none
  | '-' :: rest =>
    match rest with
    | [] => none
    | c :: _ =>
      if c.isDigit then
        let p := readDigits rest 0
        some (-(p.1 : ℤ), p.2)
      else none
  | '+' :: rest =>
    match rest with
    | [] => none
    | c :: _ =>
      if c.isDigit then
        let p := readDigits rest 0
        some ((p.1 : ℤ), p.2)
      else none
  | c :: rest =>
    if c.isDigit then
      let p := readDigits (c :: rest) 0
      some ((p.1 : ℤ), p.2)
    else none

/-- Embedding of `Scheduler.timeToMinutes` (config.go lines 358-362):
`fmt.Sscanf(timeStr, "%d:%d", &hours, &minutes)` with the error ignored,
then `hours*60 + minutes`; a field that fails to scan keeps its zero value. -/
def timeToMinutes (timeStr : String) : ℤ :=
  match scanInt timeStr.data with
  | none => 0
  | some (hours, rest) =>
    match rest with
    | ':' :: rest2 =>
      match scanInt rest2 with
      | none => hours * 60
      | some (minutes, _) => hours * 60 + minutes
    | _ => hours * 60

/-! ### Time-window predicates (config.go lines 307-315 and 374-420) -/

/-- Embedding of the night-window containment test computed inline in
`calculateTemperatureForTime` (config.go lines 307-315): when the window
crosses midnight (`start > end`) the current minute is inside when it is
past the start or before the end; otherwise when it lies between them. -/
def isNightPeriod (currentMinutes startMinutes endMinutes : ℤ) : Bool :=
  if startMinutes > endMinutes then
    decide (currentMinutes ≥ startMinutes) || decide (currentMinutes ≤ endMinutes)
  else
    decide (currentMinutes ≥ startMinutes) && decide (currentMinutes ≤ endMinutes)

/-- Embedding of `Scheduler.isInTransitionPeriod` (config.go lines 374-379). -/
def isInTransitionPeriod (current tStart tEnd : ℤ) (crossesMidnight : Bool) : Bool :=
  if crossesMidnight ∧ tStart > tEnd then
    decide (current ≥ tStart) || decide (current ≤ tEnd)
  else
    decide (current ≥ tStart) && decide (current ≤ tEnd)

/-- The `duration` local of `Scheduler.calculateTransitionProgress`
(config.go lines 391-405), extracted so theorems can refer to it. -/
def transitionDuration (tStart tEnd : ℤ) (crossesMidnight : Bool) : ℤ :=
  if crossesMidnight ∧ tStart > tEnd then (24 * 60 - tStart) + tEnd
  else tEnd - tStart

/-- The `elapsed` local of `Scheduler.calculateTransitionProgress`
(config.go lines 391-405), extracted so theorems can refer to it. -/
def transitionElapsed (current tStart tEnd : ℤ) (crossesMidnight : Bool) : ℤ :=
  if crossesMidnight ∧ tStart > tEnd then
    if current ≥ tStart then current - tStart else (24 * 60 - tStart) + current
  else current - tStart

/-- Embedding of `Scheduler.calculateTransitionProgress` (config.go lines
391-420): `1.0` when the duration is non-positive, otherwise
`elapsed/duration` clamped to `[0, 1]`. -/
def calculateTransitionProgress (current tStart tEnd : ℤ) (crossesMidnight : Bool) : ℚ :=
  let duration := transitionDuration tStart tEnd crossesMidnight
  let elapsed := transitionElapsed current tStart tEnd crossesMidnight
  if duration ≤ 0 then 1
  else
    let progress : ℚ := (elapsed : ℚ) / (duration : ℚ)
    let progress := if progress < 0 then 0 else progress
    if progress > 1 then 1 else progress

/-- Embedding of `Scheduler.interpolateTemperature` (config.go lines 431-433). -/
def interpolateTemperature (fromTemp toTemp progress : ℚ) : ℚ :=
  fromTemp + (toTemp - fromTemp) * progress

/-! ### Configuration data (config.go lines 86-122) -/

/-- Embedding of `ScheduleConfig` (config.go lines 96-103). -/
structure ScheduleConfig where
  startTime : String
  endTime : String
  nightTemp : ℚ
  dayTemp : ℚ
  transitionTime : ℤ
  autoDetectLocation : Bool

/-- Embedding of `AppConfig` (config.go lines 86-93); the on-disk persistence
fields that the scheduler never reads are kept for shape. -/
structure AppConfig where
  lastTemperature : ℚ
  autoStart : Bool
  minimizeToTray : Bool
  startMinimized : Bool
  scheduleEnabled : Bool
  schedule : ScheduleConfig

/-! ### Temperature selection (config.go lines 299-349) -/

/-- Embedding of `Scheduler.calculateTemperatureForTime` (config.go lines
299-349), parametrised by the `ScheduleConfig` the Go method reads from
`s.config.Schedule`. Go's `%` is truncated remainder, i.e. `Int.tmod`. -/
def calculateTemperatureForTime (schedule : ScheduleConfig) (currentTime : String) : ℚ :=
  let currentMinutes := timeToMinutes currentTime
  let startMinutes := timeToMinutes schedule.startTime
  let endMinutes := timeToMinutes schedule.endTime
  let transitionMinutes := schedule.transitionTime
  if isNightPeriod currentMinutes startMinutes endMinutes then
    if transitionMinutes > 0 then
      let tStart := startMinutes
      let tEnd := Int.tmod (startMinutes + transitionMinutes) (24 * 60)
      if isInTransitionPeriod currentMinutes tStart tEnd (decide (startMinutes > endMinutes)) then
        interpolateTemperature schedule.dayTemp schedule.nightTemp
          (calculateTransitionProgress currentMinutes tStart tEnd
            (decide (startMinutes > endMinutes)))
      else schedule.nightTemp
    else schedule.nightTemp
  else
    if transitionMinutes > 0 then
      let tStart := Int.tmod (endMinutes - transitionMinutes + 24 * 60) (24 * 60)
      let tEnd := endMinutes
      if isInTransitionPeriod currentMinutes tStart tEnd (decide (startMinutes > endMinutes)) then
        interpolateTemperature schedule.nightTemp schedule.dayTemp
          (calculateTransitionProgress currentMinutes tStart tEnd
            (decide (startMinutes > endMinutes)))
      else schedule.dayTemp
    else schedule.dayTemp

/-! ### Next-change projection (config.go lines 440-495) -/

/-- Descriptive label returned by `GetNextScheduleChange` when scheduling is
disabled (config.go line 442). -/
def descDisabled : String := "Programación deshabilitada"

/-- Descriptive label for the upcoming start of the night window
(config.go lines 465 and 475). -/
def descStartNight : String := "Inicio filtro nocturno"

/-- Descriptive label for the upcoming end of the night window
(config.go line 470). -/
def descEndNight : String := "Fin filtro nocturno"

/-- Embedding of `Scheduler.GetNextScheduleChange` (config.go lines 440-480).
The wall clock `now` is the number of minutes since today's midnight, as a
rational so that sub-minute instants are representable; `parseTimeToday`
(config.go lines 489-495) scans `"HH:MM"` with the same `Sscanf` format and
builds today's timestamp, whose distance from midnight in minutes is exactly
`timeToMinutes` (Go's `time.Date` normalises an overflowing hour or minute
field by the same `h*60+m` arithmetic). Returns the description, the
temperature of the next change and the remaining duration in minutes. -/
def GetNextScheduleChange (config : AppConfig) (now : ℚ) : String × ℚ × ℚ :=
  if !config.scheduleEnabled then (descDisabled, config.lastTemperature, 0)
  else
    let startT : ℚ := (timeToMinutes config.schedule.startTime : ℚ)
    let endT0 : ℚ := (timeToMinutes config.schedule.endTime : ℚ)
    let endT : ℚ := if endT0 < startT then endT0 + 24 * 60 else endT0
    if now < startT then (descStartNight, config.schedule.nightTemp, startT - now)
    else if now < endT then (descEndNight, config.schedule.dayTemp, endT - now)
    else (descStartNight, config.schedule.nightTemp, startT + 24 * 60 - now)

/-! ### Scheduler lifecycle (config.go lines 188-264 and 502-514)

The `Scheduler` struct owns the configuration pointer and the `isRunning`
flag. `Start` is embedded as a state transformer that also reports whether
it launched the background goroutine (which performs the immediate apply
and then ticks once per minute); `Stop` as a state transformer (its channel
send is modelled separately by the loop system below). -/

/-- Embedding of the `Scheduler` struct's state visible to the lifecycle
claims (config.go lines 188-193): the configuration and the running flag. -/
structure Scheduler where
  config : AppConfig
  isRunning : Bool

/-- Embedding of `Scheduler.Start` (config.go lines 217-243): a no-op when
already running or when scheduling is disabled; otherwise marks the
scheduler running and launches the background loop. The boolean result
records whether a goroutine (with its immediate apply) was launched. -/
def Scheduler.Start (s : Scheduler) : Scheduler × Bool :=
  if s.isRunning || !s.config.scheduleEnabled then (s, false)
  else ({ s with isRunning := true }, true)

/-- Embedding of `Scheduler.Stop` (config.go lines 248-255): a no-op when not
running; otherwise clears the running flag (and signals the loop, modelled
by the loop system below). -/
def Scheduler.Stop (s : Scheduler) : Scheduler :=
  if !s.isRunning then s else { s with isRunning := false }

/-- Embedding of `Scheduler.IsRunning` (config.go lines 262-264). -/
def Scheduler.IsRunning (s : Scheduler) : Bool :=
  s.isRunning

/-- Embedding of `Scheduler.UpdateConfig` (config.go lines 502-514): replace
the configuration, then stop if the new configuration disables scheduling
while running, and start if it enables scheduling while not running. -/
def Scheduler.UpdateConfig (s : Scheduler) (newConfig : AppConfig) : Scheduler :=
  let s1 : Scheduler := { s with config := newConfig }
  let s2 := if !newConfig.scheduleEnabled && s1.isRunning then s1.Stop else s1
  if newConfig.scheduleEnabled && !s2.isRunning then s2.Start.1 else s2

/-! ### Concurrency model of the background loop (config.go lines 217-255)

`Start` launches one goroutine; `Stop` sends `true` on the unbuffered
`stopChannel`, which in Go's semantics is a rendezvous: the send completes
only when the loop's `select` receives it, after which the loop returns
without ticking again. The foreground thread executes `Start`/`Stop` calls
sequentially, so while it is blocked in `Stop`'s send it can issue no other
call. The system below makes each of these events a transition; the
rendezvous is one joint step that unblocks the caller and retires the loop. -/

/-- A foreground call to the scheduler lifecycle. -/
inductive SchedOp where
  | startOp : SchedOp
  | stopOp : SchedOp

/-- Global state of the foreground thread and the background tick loops:
the `isRunning` flag, the (fixed) enabled flag, how many launched loops
have not yet returned, whether the foreground thread is blocked sending on
the unbuffered stop channel, and the remaining foreground program. -/
structure LoopSystem where
  running : Bool
  enabled : Bool
  liveLoops : ℕ
  stopPending : Bool
  prog : List SchedOp

/-- Small-step transition relation of the loop system. `callStart` and
`callStop` embed the bodies of `Start` (config.go lines 217-243) and the
flag-clearing half of `Stop` (config.go lines 248-254); `rendezvous` is the
unbuffered-channel handoff of `s.stopChannel <- true` with the loop's
receive-and-return (config.go lines 237-239 and 254), one joint atomic
step as Go's channel semantics guarantees. -/
inductive LoopStep : LoopSystem → LoopSystem → Prop where
  | callStart (s : LoopSystem) (rest : List SchedOp) :
      s.stopPending = false → s.prog = SchedOp.startOp :: rest →
      LoopStep s
        (if s.running || !s.enabled then { s with prog := rest }
         else { s with running := true, liveLoops := s.liveLoops + 1, prog := rest })
  | callStop (s : LoopSystem) (rest : List SchedOp) :
      s.stopPending = false → s.prog = SchedOp.stopOp :: rest →
      LoopStep s
        (if !s.running then { s with prog := rest }
         else { s with running := false, stopPending := true, prog := rest })
  | rendezvous (s : LoopSystem) :
      s.stopPending = true →
      LoopStep s { s with stopPending := false, liveLoops := s.liveLoops - 1 }

/-- Initial state of the loop system: scheduler constructed by
`NewScheduler` (config.go lines 202-209, `isRunning: false`, no goroutine),
about to execute the foreground program `prog`. -/
def loopInit (enabled : Bool) (prog : List SchedOp) : LoopSystem :=
  { running := false, enabled := enabled, liveLoops := 0, stopPending := false, prog := prog }

/-- A state is reachable when a finite sequence of steps leads to it. -/
def loopReachable (s t : LoopSystem) : Prop :=
  Relation.ReflTransGen LoopStep s t

/-! ### Color science (src/internal/system/gamma.go)

`temperatureToRGB` (gamma.go lines 674-756) uses `math.Log` and `math.Pow`;
they are embedded as `Real.log` and real-exponent `rpow`, so the channel
computations live in `ℝ`. -/

/-- Embedding of `GammaManager.temperatureToRGB` (gamma.go lines 674-756):
the Tanner Helland black-body approximation, each channel clamped and then
floored to the minimum gamma 0.3. The sequential Go reassignments of `r`,
`g`, `b` become `let` chains. -/
noncomputable def temperatureToRGB (temp : ℝ) : ℝ × ℝ × ℝ :=
  let t : ℝ := temp / 100
  let r : ℝ :=
    if t ≤ 66 then 1.0
    else
      let r0 : ℝ := 329.698727446 * (t - 60) ^ (-0.1332047592 : ℝ)
      let r1 : ℝ := if r0 < 0 then 0 else r0
      if r1 > 1 then 1 else r1
  let g : ℝ :=
    if t ≤ 66 then
      let g0 : ℝ := 99.4708025861 * Real.log t - 161.1195681661
      let g1 : ℝ := if g0 < 0 then 0 else g0
      let g2 : ℝ := if g1 > 255 then 255 else g1
      g2 / 255
    else
      let g0 : ℝ := 288.1221695283 * (t - 60) ^ (-0.0755148492 : ℝ)
      let g1 : ℝ := if g0 < 0 then 0 else g0
      if g1 > 1 then 1 else g1
  let b : ℝ :=
    if t ≥ 66 then 1.0
    else if t ≤ 19 then 0
    else
      let b0 : ℝ := 138.5177312231 * Real.log (t - 10) - 305.0447927307
      let b1 : ℝ := if b0 < 0 then 0 else b0
      let b2 : ℝ := if b1 > 255 then 255 else b1
      b2 / 255
  let minGamma : ℝ := 0.3
  (if r < minGamma then minGamma else r,
   if g < minGamma then minGamma else g,
   if b < minGamma then minGamma else b)

/-- Embedding of `GammaManager.rgbToTemperature` (gamma.go lines 782-804):
all channels near 1 report daylight, otherwise the blue channel is
bucketed into six bands. -/
noncomputable def rgbToTemperature (r g b : ℝ) : ℝ :=
  if r ≥ 0.95 ∧ g ≥ 0.95 ∧ b ≥ 0.95 then 6500
  else if b ≥ 0.9 then 6500
  else if b ≥ 0.8 then 5500
  else if b ≥ 0.7 then 4500
  else if b ≥ 0.6 then 4000
  else if b ≥ 0.5 then 3500
  else 3000

/-! ### Concrete inputs used by the claims -/

/-- The schedule of claims C1 and C2: 20:00-07:00, 3000K/6500K, 30-minute
transition. -/
def scheduleC1 : ScheduleConfig :=
  { startTime := "20:00", endTime := "07:00", nightTemp := 3000, dayTemp := 6500,
    transitionTime := 30, autoDetectLocation := false }

/-- An enabled application configuration carrying `scheduleC1`. -/
def configC2 : AppConfig :=
  { lastTemperature := 4500, autoStart := false, minimizeToTray := true,
    startMinimized := false, scheduleEnabled := true, schedule := scheduleC1 }

/-- Wall-clock sample 20:00. -/
def hm2000 : String := "20:00"

/-- Wall-clock sample 20:15. -/
def hm2015 : String := "20:15"

/-- Wall-clock sample 20:30. -/
def hm2030 : String := "20:30"

/-- Wall-clock sample 03:00. -/
def hm0300 : String := "03:00"

/-- Wall-clock sample 12:00. -/
def hm1200 : String := "12:00"

/-- Wall-clock sample 07:00, the end boundary of `scheduleC1`. -/
def hm0700 : String := "07:00"

/-- A malformed time string whose hour field scans as `2` and whose minute
field never scans. -/
def badHour : String := "2x:30"

/-- A string in which no integer can be scanned at all. -/
def noDigits : String := "xx"

/-- Render an hour/minute pair as the five-character string "HH:MM". -/
def formatHHMM (h m : ℕ) : String :=
  ⟨[Nat.digitChar (h / 10), Nat.digitChar (h % 10), ':',
    Nat.digitChar (m / 10), Nat.digitChar (m % 10)]⟩

section RatEvaluation

attribute [local semireducible] Rat.add Rat.sub Rat.mul Rat.inv Rat.ofScientific

/-- C1: for the schedule {startTime="20:00", endTime="07:00", nightTemp=3000,
dayTemp=6500, transitionMinutes=30}, `calculateTemperatureForTime` returns
exactly 6500 at "20:00", exactly 4750 at "20:15", exactly 3000 at "20:30",
exactly 3000 at "03:00", and exactly 6500 at "12:00". -/
theorem C1_calculateTemperatureForTime_examples :
    calculateTemperatureForTime scheduleC1 hm2000 = 6500 ∧
    calculateTemperatureForTime scheduleC1 hm2015 = 4750 ∧
    calculateTemperatureForTime scheduleC1 hm2030 = 3000 ∧
    calculateTemperatureForTime scheduleC1 hm0300 = 3000 ∧
    calculateTemperatureForTime scheduleC1 hm1200 = 6500 := by
  decide

/-- C2 counterexample: with the enabled config `configC2` at 23:00 (1380
minutes), `GetNextScheduleChange` reports the end boundary 07:00 as the next
change with temperature 6500 (the day temperature), but
`calculateTemperatureForTime` evaluated at that boundary instant "07:00"
returns 3000 (the night temperature, since the end minute is inclusive in
the night window), so the reported temperature differs from the computed
temperature at the boundary instant. -/
theorem C2_counterexample :
    (GetNextScheduleChange configC2 1380).1 = descEndNight ∧
    (GetNextScheduleChange configC2 1380).2.1 = 6500 ∧
    calculateTemperatureForTime configC2.schedule hm0700 = 3000 ∧
    (GetNextScheduleChange configC2 1380).2.1 ≠
      calculateTemperatureForTime configC2.schedule hm0700 := by
  decide

/-- C8 counterexample: the malformed input "2x:30" does not parse as 00:00;
`timeToMinutes` scans its hour field as 2, never reaches the minute field,
and returns 120, not 0. -/
theorem C8_counterexample :
    timeToMinutes badHour = 120 ∧ timeToMinutes badHour ≠ 0 := by
  decide

end RatEvaluation

/-- C4: the night-window containment test is true, for a midnight-crossing
window (`start > end`), exactly when `now ≥ start` or `now ≤ end`, and
otherwise exactly when `start ≤ now ≤ end`; for start=1200 and end=420,
now=1380 is inside, now=720 is outside, now=420 is inside (boundary
inclusive) and now=1199 is outside. -/
theorem C4_isNightPeriod_characterisation :
    (∀ now st en : ℤ, st > en →
      (isNightPeriod now st en = true ↔ now ≥ st ∨ now ≤ en)) ∧
    (∀ now st en : ℤ, st ≤ en →
      (isNightPeriod now st en = true ↔ st ≤ now ∧ now ≤ en)) ∧
    isNightPeriod 1380 1200 420 = true ∧
    isNightPeriod 720 1200 420 = false ∧
    isNightPeriod 420 1200 420 = true ∧
    isNightPeriod 1199 1200 420 = false := by
  refine ⟨?_, ?_, by decide, by decide, by decide, by decide⟩
  · intro now st en h
    simp [isNightPeriod, if_pos h]
  · intro now st en h
    simp [isNightPeriod, if_neg (not_lt.mpr h)]

/-- C4 witness: the characterisation applied at concrete windows, one
crossing midnight and one not. -/
theorem C4_isNightPeriod_characterisation_witness :
    (isNightPeriod 1380 1200 420 = true ↔ (1380 : ℤ) ≥ 1200 ∨ (1380 : ℤ) ≤ 420) ∧
    (isNightPeriod 300 200 400 = true ↔ (200 : ℤ) ≤ 300 ∧ (300 : ℤ) ≤ 400) :=
  ⟨C4_isNightPeriod_characterisation.1 1380 1200 420 (by decide),
   C4_isNightPeriod_characterisation.2.1 300 200 400 (by decide)⟩

/-- The elapsed time at the exact start of a transition window is zero. -/
lemma transitionElapsed_at_start (tStart tEnd : ℤ) (cm : Bool) :
    transitionElapsed tStart tStart tEnd cm = 0 := by
  unfold transitionElapsed
  split_ifs <;> omega

/-- The elapsed time at the exact end of a transition window equals its
duration, in both the wrapping and the non-wrapping case. -/
lemma transitionElapsed_at_end (tStart tEnd : ℤ) (cm : Bool) :
    transitionElapsed tEnd tStart tEnd cm = transitionDuration tStart tEnd cm := by
  unfold transitionElapsed transitionDuration
  split_ifs <;> omega

/-- C5: for every transition sub-window, `calculateTransitionProgress` is
always clamped to [0,1]; it returns exactly 1 whenever the window's
duration is non-positive, exactly 0 at the window's start when the duration
is positive, and exactly 1 at the window's end (including when the window
wraps past midnight). -/
theorem C5_transitionProgress_boundaries :
    ∀ (current tStart tEnd : ℤ) (cm : Bool),
      (0 ≤ calculateTransitionProgress current tStart tEnd cm ∧
        calculateTransitionProgress current tStart tEnd cm ≤ 1) ∧
      (transitionDuration tStart tEnd cm ≤ 0 →
        calculateTransitionProgress current tStart tEnd cm = 1) ∧
      (0 < transitionDuration tStart tEnd cm → current = tStart →
        calculateTransitionProgress current tStart tEnd cm = 0) ∧
      (current = tEnd → calculateTransitionProgress current tStart tEnd cm = 1) := by
  intro current tStart tEnd cm
  refine ⟨?_, ?_, ?_, ?_⟩
  · simp only [calculateTransitionProgress]
    split_ifs <;> push_neg at * <;>
      exact ⟨by first | assumption | norm_num, by first | assumption | norm_num⟩
  · intro h
    simp only [calculateTransitionProgress, if_pos h]
  · intro hd hcur
    subst hcur
    simp only [calculateTransitionProgress, transitionElapsed_at_start, Int.cast_zero,
      zero_div, if_neg (not_le.mpr hd)]
    norm_num
  · intro hcur
    rw [hcur]
    by_cases hd : transitionDuration tStart tEnd cm ≤ 0
    · simp only [calculateTransitionProgress, if_pos hd]
    · have hd' : (0 : ℚ) < (transitionDuration tStart tEnd cm : ℚ) := by
        exact_mod_cast not_le.mp hd
      simp only [calculateTransitionProgress, transitionElapsed_at_end, if_neg hd,
        div_self (ne_of_gt hd')]
      norm_num

/-- C5 witness: the boundary facts applied to a degenerate window, to the
start of a midnight-wrapping window, and to its end. -/
theorem C5_transitionProgress_boundaries_witness :
    calculateTransitionProgress 7 5 5 false = 1 ∧
    calculateTransitionProgress 1430 1430 10 true = 0 ∧
    calculateTransitionProgress 10 1430 10 true = 1 :=
  ⟨(C5_transitionProgress_boundaries 7 5 5 false).2.1 (by decide),
   (C5_transitionProgress_boundaries 1430 1430 10 true).2.2.1 (by decide) rfl,
   (C5_transitionProgress_boundaries 10 1430 10 true).2.2.2 rfl⟩

/-- C3: after every `UpdateConfig` call the scheduler's running flag equals
the new configuration's enabled flag: an enabling config starts a stopped
scheduler, a disabling config stops a running one, and matching states are
left alone. -/
theorem C3_updateConfig_running_matches_enabled :
    ∀ (s : Scheduler) (newConfig : AppConfig),
      (s.UpdateConfig newConfig).IsRunning = newConfig.scheduleEnabled := by
  intro s newConfig
  cases hrun : s.isRunning <;> cases hen : newConfig.scheduleEnabled <;>
    simp [Scheduler.UpdateConfig, Scheduler.Start, Scheduler.Stop, Scheduler.IsRunning,
      hrun, hen]

/-- C9: `Start` on a running scheduler, or one whose config disables
scheduling, returns the state unchanged and launches no goroutine; two
consecutive `Start` calls leave the same state as one with no second
launch; `Stop` on a non-running scheduler is the identity. -/
theorem C9_start_stop_noops :
    ∀ s : Scheduler,
      (s.isRunning = true → s.Start = (s, false)) ∧
      (s.config.scheduleEnabled = false → s.Start = (s, false)) ∧
      s.Start.1.Start.1 = s.Start.1 ∧ s.Start.1.Start.2 = false ∧
      (s.isRunning = false → s.Stop = s) := by
  intro s
  rcases s with ⟨cfg, run⟩
  cases run <;> cases hen : cfg.scheduleEnabled <;>
    simp [Scheduler.Start, Scheduler.Stop, hen]

/-- A scheduler that is currently running with the enabled `configC2`. -/
def runningSched : Scheduler := { config := configC2, isRunning := true }

/-- A scheduler that is stopped, with the enabled `configC2`. -/
def stoppedSched : Scheduler := { config := configC2, isRunning := false }

/-- A stopped scheduler whose configuration disables scheduling. -/
def disabledSched : Scheduler :=
  { config := { configC2 with scheduleEnabled := false }, isRunning := false }

/-- C9 witness: the no-op facts applied to a running scheduler, a disabled
one and a stopped one. -/
theorem C9_start_stop_noops_witness :
    runningSched.Start = (runningSched, false) ∧
    disabledSched.Start = (disabledSched, false) ∧
    stoppedSched.Stop = stoppedSched :=
  ⟨(C9_start_stop_noops runningSched).1 rfl,
   (C9_start_stop_noops disabledSched).2.1 rfl,
   (C9_start_stop_noops stoppedSched).2.2.2.2 rfl⟩

/-- C8 (amended): `timeToMinutes` returns `hours*60 + minutes` for every
well-formed "HH:MM" input; on malformed input it never errors, but the
parse is best-effort per field: a field that fails to scan contributes its
zero value, so only a string with no leading integer at all returns 0. -/
theorem C8_timeToMinutes_best_effort :
    (∀ h : Fin 24, ∀ m : Fin 60,
      timeToMinutes (formatHHMM h.val m.val) = (h.val : ℤ) * 60 + (m.val : ℤ)) ∧
    (∀ s : String, scanInt s.data = none → timeToMinutes s = 0) := by
  constructor
  · decide
  · intro s h
    simp [timeToMinutes, h]

/-- C8 witness: the well-formed case at 20:30 and the unparseable case. -/
theorem C8_timeToMinutes_best_effort_witness :
    timeToMinutes (formatHHMM 20 30) = 20 * 60 + 30 ∧ timeToMinutes noDigits = 0 :=
  ⟨C8_timeToMinutes_best_effort.1 ⟨20, by decide⟩ ⟨30, by decide⟩,
   C8_timeToMinutes_best_effort.2 noDigits (by decide)⟩

/-- C2 (amended): for every enabled config and every current time,
`GetNextScheduleChange` reports the settled target temperature of the phase
that begins at the next boundary - the night temperature when the next
boundary is the window's start, the day temperature when it is the window's
end. -/
theorem C2_nextChange_reports_settled_target :
    ∀ (config : AppConfig) (now : ℚ), config.scheduleEnabled = true →
      ((GetNextScheduleChange config now).1 = descStartNight ∧
        (GetNextScheduleChange config now).2.1 = config.schedule.nightTemp) ∨
      ((GetNextScheduleChange config now).1 = descEndNight ∧
        (GetNextScheduleChange config now).2.1 = config.schedule.dayTemp) := by
  intro config now h
  simp only [GetNextScheduleChange, h, Bool.not_true, Bool.false_eq_true, if_false]
  split_ifs <;> simp

/-- C2 witness: the amended projection fact at the concrete enabled config
and 23:00. -/
theorem C2_nextChange_reports_settled_target_witness :
    ((GetNextScheduleChange configC2 1380).1 = descStartNight ∧
      (GetNextScheduleChange configC2 1380).2.1 = configC2.schedule.nightTemp) ∨
    ((GetNextScheduleChange configC2 1380).1 = descEndNight ∧
      (GetNextScheduleChange configC2 1380).2.1 = configC2.schedule.dayTemp) :=
  C2_nextChange_reports_settled_target configC2 1380 rfl

/-- Inductive invariant of the loop system: the number of live background
loops is exactly one for a running scheduler or an in-flight stop handoff,
which never coexist, and zero otherwise. -/
def loopInv (s : LoopSystem) : Prop :=
  s.liveLoops = (if s.running then 1 else 0) + (if s.stopPending then 1 else 0) ∧
  (s.running = true → s.stopPending = false)

/-- The initial loop system satisfies the invariant. -/
lemma loopInv_init (enabled : Bool) (prog : List SchedOp) :
    loopInv (loopInit enabled prog) := by
  simp [loopInv, loopInit]

/-- Every transition of the loop system preserves the invariant. -/
lemma loopInv_step {s t : LoopSystem} (h : LoopStep s t) (hs : loopInv s) : loopInv t := by
  obtain ⟨hcount, hmutex⟩ := hs
  cases h with
  | callStart rest hp hprog =>
    by_cases hc : (s.running || !s.enabled) = true
    · rw [if_pos hc]
      exact ⟨hcount, hmutex⟩
    · rw [if_neg hc]
      have hrun : s.running = false := by
        cases hr : s.running
        · rfl
        · exact absurd (by simp [hr]) hc
      refine ⟨?_, fun _ => hp⟩
      simp [hrun, hp] at hcount
      simp [hp, hcount]
  | callStop rest hp hprog =>
    by_cases hc : (!s.running) = true
    · rw [if_pos hc]
      exact ⟨hcount, hmutex⟩
    · rw [if_neg hc]
      have hrun : s.running = true := by
        cases hr : s.running
        · exact absurd (by simp [hr]) hc
        · rfl
      refine ⟨?_, by simp⟩
      simp [hrun, hp] at hcount
      simp [hcount]
  | rendezvous hp =>
    have hrun : s.running = false := by
      cases hr : s.running
      · rfl
      · exact absurd (hmutex hr) (by simp [hp])
    refine ⟨?_, by simp [hrun]⟩
    simp [hrun, hp] at hcount
    simp [hrun, hcount]

/-- The invariant holds in every reachable state. -/
lemma loopInv_reachable {s t : LoopSystem} (h : loopReachable s t) (hs : loopInv s) :
    loopInv t := by
  induction h with
  | refl => exact hs
  | tail _ hstep ih => exact loopInv_step hstep ih

/-- C10: starting from a fresh scheduler executing any sequence of `Start`
and `Stop` calls, every reachable state of the loop system has at most one
live background loop: in particular a `Stop` immediately followed by a
`Start` never leaves two tick loops running concurrently, because the
unbuffered-channel rendezvous retires the old loop before `Stop` returns
and `Start` can launch the new one. -/
theorem C10_no_overlapping_loops :
    ∀ (enabled : Bool) (prog : List SchedOp) (t : LoopSystem),
      loopReachable (loopInit enabled prog) t → t.liveLoops ≤ 1 := by
  intro enabled prog t h
  obtain ⟨hcount, hmutex⟩ := loopInv_reachable h (loopInv_init enabled prog)
  rw [hcount]
  by_cases hr : t.running = true
  · simp [hr, hmutex hr]
  · simp only [if_neg hr]
    split_ifs <;> norm_num

/-- The foreground program "apply schedule now": `Stop()` immediately
followed by `Start()`. -/
def stopThenStart : List SchedOp := [SchedOp.stopOp, SchedOp.startOp]

/-- C10 witness: the bound applied along a concrete execution - the state
reached after the (no-op) `Stop` of the stop-then-start program. -/
theorem C10_no_overlapping_loops_witness :
    ({ running := false, enabled := true, liveLoops := 0, stopPending := false,
       prog := [SchedOp.startOp] } : LoopSystem).liveLoops ≤ 1 :=
  C10_no_overlapping_loops true stopThenStart _
    (Relation.ReflTransGen.single (LoopStep.callStop _ [SchedOp.startOp] rfl rfl))

/-- The minimum-gamma floor is bounded below by 0.3. -/
lemma minGammaFloor_lb (x : ℝ) : 0.3 ≤ if x < 0.3 then (0.3 : ℝ) else x := by
  split_ifs with h
  · norm_num
  · linarith [not_lt.mp h]

/-- The minimum-gamma floor of a value at most 1 stays at most 1. -/
lemma minGammaFloor_ub (x : ℝ) (hx : x ≤ 1) :
    (if x < 0.3 then (0.3 : ℝ) else x) ≤ 1 := by
  split_ifs with h
  · norm_num
  · exact hx

/-- C6: for every Kelvin input in [1000, 40000], each of the three channels
returned by `temperatureToRGB` lies in [0.3, 1]: every branch is clamped to
at most 1 before the 0.3 minimum-gamma floor is applied. -/
theorem C6_temperatureToRGB_range :
    ∀ temp : ℝ, 1000 ≤ temp → temp ≤ 40000 →
      (0.3 ≤ (temperatureToRGB temp).1 ∧ (temperatureToRGB temp).1 ≤ 1) ∧
      (0.3 ≤ (temperatureToRGB temp).2.1 ∧ (temperatureToRGB temp).2.1 ≤ 1) ∧
      (0.3 ≤ (temperatureToRGB temp).2.2 ∧ (temperatureToRGB temp).2.2 ≤ 1) := by
  intro temp h1 h40
  simp only [temperatureToRGB]
  refine ⟨⟨minGammaFloor_lb _, minGammaFloor_ub _ ?_⟩,
    ⟨minGammaFloor_lb _, minGammaFloor_ub _ ?_⟩,
    ⟨minGammaFloor_lb _, minGammaFloor_ub _ ?_⟩⟩ <;>
    split_ifs <;> linarith

/-- C6 witness: the channel bounds at the warm reference input 3000K. -/
theorem C6_temperatureToRGB_range_witness :
    (0.3 ≤ (temperatureToRGB 3000).1 ∧ (temperatureToRGB 3000).1 ≤ 1) ∧
    (0.3 ≤ (temperatureToRGB 3000).2.1 ∧ (temperatureToRGB 3000).2.1 ≤ 1) ∧
    (0.3 ≤ (temperatureToRGB 3000).2.2 ∧ (temperatureToRGB 3000).2.2 ≤ 1) :=
  C6_temperatureToRGB_range 3000 (by norm_num) (by norm_num)

/-! ### Numeric bounds on the logarithms used by the color curves

The blue and green warming curves evaluate `Real.log` at 20, 35, 55 and 65
(for inputs 3000K, 4500K and 6500K). The bounds below squeeze each
logarithm between rationals via the decimal bounds on `exp 1`. -/

/-- Raise `exp (p/q)` to the `q`-th power to obtain `exp p`. -/
lemma exp_div_pow (p q : ℕ) (hq : q ≠ 0) : Real.exp ((p : ℝ) / q) ^ q = Real.exp p := by
  have hq' : (q : ℝ) ≠ 0 := Nat.cast_ne_zero.mpr hq
  rw [← Real.exp_nat_mul]
  congr 1
  field_simp

/-- A rational lower bound on a logarithm from a power comparison. -/
lemma log_gt_ratio (x : ℝ) (p q : ℕ) (hq : q ≠ 0) (hx : 0 < x)
    (h : (2.7182818286 : ℝ) ^ p < x ^ q) : (p : ℝ) / q < Real.log x := by
  rw [Real.lt_log_iff_exp_lt hx]
  refine lt_of_pow_lt_pow_left₀ q hx.le ?_
  rw [exp_div_pow p q hq]
  have h2 : Real.exp (p : ℝ) ≤ (2.7182818286 : ℝ) ^ p := by
    have h3 := pow_le_pow_left₀ (Real.exp_pos 1).le Real.exp_one_lt_d9.le p
    rwa [← Real.exp_nat_mul, mul_one] at h3
  exact lt_of_le_of_lt h2 h

/-- A rational upper bound on a logarithm from a power comparison. -/
lemma log_lt_ratio (x : ℝ) (p q : ℕ) (hq : q ≠ 0) (hx : 0 < x)
    (h : x ^ q < (2.7182818283 : ℝ) ^ p) : Real.log x < (p : ℝ) / q := by
  rw [Real.log_lt_iff_lt_exp hx]
  refine lt_of_pow_lt_pow_left₀ q (Real.exp_pos _).le ?_
  rw [exp_div_pow p q hq]
  have h2 : (2.7182818283 : ℝ) ^ p ≤ Real.exp (p : ℝ) := by
    have h3 := pow_le_pow_left₀ (by norm_num : (0 : ℝ) ≤ 2.7182818283) Real.exp_one_gt_d9.le p
    rwa [← Real.exp_nat_mul, mul_one] at h3
  exact lt_of_lt_of_le h h2

/-- Lower bound `2.9 < log 20`. -/
lemma log20_gt : (29 / 10 : ℝ) < Real.log 20 := by
  simpa using log_gt_ratio 20 29 10 (by norm_num) (by norm_num) (by norm_num)

/-- Upper bound `log 20 < 3`. -/
lemma log20_lt : Real.log 20 < 3 := by
  simpa using log_lt_ratio 20 3 1 (by norm_num) (by norm_num) (by norm_num)

/-- Lower bound `3.5 < log 35`. -/
lemma log35_gt : (7 / 2 : ℝ) < Real.log 35 := by
  simpa using log_gt_ratio 35 7 2 (by norm_num) (by norm_num) (by norm_num)

/-- Upper bound `log 35 < 3.6`. -/
lemma log35_lt : Real.log 35 < 18 / 5 := by
  simpa using log_lt_ratio 35 18 5 (by norm_num) (by norm_num) (by norm_num)

/-- Lower bound `4.1 < log 65`. -/
lemma log65_gt : (41 / 10 : ℝ) < Real.log 65 := by
  simpa using log_gt_ratio 65 41 10 (by norm_num) (by norm_num) (by norm_num)

/-- Lower bound `4 < log 55`. -/
lemma log55_gt : (4 : ℝ) < Real.log 55 := by
  simpa using log_gt_ratio 55 4 1 (by norm_num) (by norm_num) (by norm_num)

/-- The blue channel at 3000K is below 0.5, landing in the warmest band. -/
lemma t3000_blue : (temperatureToRGB 3000).2.2 < 0.5 := by
  have hl := log20_gt
  have hu := log20_lt
  simp only [temperatureToRGB]
  norm_num
  split_ifs <;> linarith

/-- The blue channel at 4500K lies in the band [0.7, 0.8). -/
lemma t4500_blue : 0.7 ≤ (temperatureToRGB 4500).2.2 ∧ (temperatureToRGB 4500).2.2 < 0.8 := by
  have hl := log35_gt
  have hu := log35_lt
  simp only [temperatureToRGB]
  norm_num
  split_ifs <;> constructor <;> linarith

/-- The red channel at 6500K is exactly 1. -/
lemma t6500_red : (temperatureToRGB 6500).1 = 1 := by
  simp only [temperatureToRGB]
  norm_num

/-- The green channel at 6500K is at least 0.95. -/
lemma t6500_green : 0.95 ≤ (temperatureToRGB 6500).2.1 := by
  have hl := log65_gt
  simp only [temperatureToRGB]
  norm_num
  split_ifs <;> linarith

/-- The blue channel at 6500K is at least 0.95. -/
lemma t6500_blue : 0.95 ≤ (temperatureToRGB 6500).2.2 := by
  have hl := log55_gt
  simp only [temperatureToRGB]
  norm_num
  split_ifs <;> linarith

/-- C7: the round trip `rgbToTemperature ∘ temperatureToRGB` lands in the
correct band for each of 3000K, 4500K and 6500K - in fact it recovers the
input exactly: the blue channel at 3000K falls below the 0.5 band edge, at
4500K inside [0.7, 0.8), and at 6500K all three channels exceed 0.95, so
warm inputs stay warm and cool inputs stay cool, within one band as the
claim requires. -/
theorem C7_roundtrip_bands :
    rgbToTemperature (temperatureToRGB 3000).1 (temperatureToRGB 3000).2.1
      (temperatureToRGB 3000).2.2 = 3000 ∧
    rgbToTemperature (temperatureToRGB 4500).1 (temperatureToRGB 4500).2.1
      (temperatureToRGB 4500).2.2 = 4500 ∧
    rgbToTemperature (temperatureToRGB 6500).1 (temperatureToRGB 6500).2.1
      (temperatureToRGB 6500).2.2 = 6500 := by
  refine ⟨?_, ?_, ?_⟩
  · have hb := t3000_blue
    have hc1 : ¬((temperatureToRGB 3000).1 ≥ 0.95 ∧ (temperatureToRGB 3000).2.1 ≥ 0.95 ∧
        (temperatureToRGB 3000).2.2 ≥ 0.95) := fun hcon => by linarith [hcon.2.2]
    unfold rgbToTemperature
    rw [if_neg hc1, if_neg (by intro h; linarith), if_neg (by intro h; linarith),
      if_neg (by intro h; linarith), if_neg (by intro h; linarith),
      if_neg (by intro h; linarith)]
  · obtain ⟨hb1, hb2⟩ := t4500_blue
    have hc1 : ¬((temperatureToRGB 4500).1 ≥ 0.95 ∧ (temperatureToRGB 4500).2.1 ≥ 0.95 ∧
        (temperatureToRGB 4500).2.2 ≥ 0.95) := fun hcon => by linarith [hcon.2.2]
    unfold rgbToTemperature
    rw [if_neg hc1, if_neg (by intro h; linarith), if_neg (by intro h; linarith),
      if_pos (by linarith)]
  · have hr := t6500_red
    have hg := t6500_green
    have hb := t6500_blue
    unfold rgbToTemperature
    rw [if_pos ⟨by rw [hr]; norm_num, by linarith, by linarith⟩]

end LuzNocturna
